import Mathlib

/-!
Verification development for the dex-server transaction build / sign / submit
pipeline: the swap assembler (SwapService.buildSwapResponse), the bounded
rebuild loop (Service.buildSwapResponseWithRebuild), the consume-once
transaction registry, the submission classifier (Service.signAndSendTransaction),
the transfer assembler (TransferService.getTransfer), and the per-user swap
stream map (SwapService).

The embedding is shallow: TypeScript objects become structures, the in-memory
registry (a JS Map keyed by the base64-encoded compiled message) becomes an
association list threaded through each operation, external collaborators
(Jupiter quotes, chain RPC, signing) become explicit oracle parameters, and
thrown errors become an explicit error type.  TypeScript truthiness on the
optional slippageBps field is modelled by the `truthy` predicate.

Parts of the repository that are referenced but whose source is not in the
excerpt (FeeService.calculateFeeAmount, FeeService.createFeeTransferInstruction,
TransactionService.createTokenCloseInstruction, TransactionService's registry
register / signAndSend routines) are modelled from the specification's wording;
each such definition carries a doc comment saying so.
-/

set_option maxHeartbeats 1000000
set_option linter.unusedVariables false

namespace DexServer

/-- Transaction classification, from src/unnamed/part_002 (types). -/
inductive TransactionType where
  | BUY
  | SELL_PARTIAL
  | SELL_ALL
  | TRANSFER
  deriving Repr, DecidableEq

/-- Policy configuration snapshot (ConfigService's Config), the fields the
pipeline reads: slippage bounds, auto-slippage policy, build-attempt budget,
fee tiers and trade-size floor. -/
structure Config where
  MIN_SLIPPAGE_BPS : Nat
  USER_SLIPPAGE_BPS_MAX : Nat
  MAX_DEFAULT_SLIPPAGE_BPS : Nat
  MAX_AUTO_SLIPPAGE_BPS : Nat
  AUTO_SLIPPAGE_COLLISION_USD_VALUE : Nat
  AUTO_SLIPPAGE : Bool
  MAX_ACCOUNTS : Nat
  MAX_BUILD_ATTEMPTS : Nat
  BUY_FEE_BPS : Nat
  SELL_FEE_BPS : Nat
  MIN_TRADE_SIZE : Nat
  deriving Repr, DecidableEq

/-- ActiveSwapRequest from src/unnamed/part_002: a user swap request plus the
derived token accounts and the user's public key.  Public keys and accounts
are modelled as strings.  sellTokenAccount is optional because
buildSwapResponse guards against its absence. -/
structure ActiveSwapRequest where
  buyTokenId : String
  sellTokenId : String
  sellQuantity : Nat
  slippageBps : Option Nat
  buyTokenAccount : String
  sellTokenAccount : Option String
  userPublicKey : String
  deriving Repr, DecidableEq

/-- Transaction instructions, abstracted to the shapes the pipeline produces:
route instructions from the quote provider, the fee transfer, the token-account
close, compute-budget instructions, ATA creation and plain transfers. -/
inductive Instruction where
  | route (id : Nat)
  | feeTransfer (source : String) (owner : String) (amount : Int)
  | tokenClose (account : String) (owner : String)
  | computeUnitLimit (units : Nat)
  | computeUnitPrice (microLamports : Nat)
  | createATA (payer : String) (account : String) (owner : String) (mint : String)
  | solTransfer (source : String) (dest : String) (lamports : Nat)
  | tokenTransfer (source : String) (dest : String) (owner : String) (amount : Nat)
  deriving Repr, DecidableEq

/-- The quote request assembled for JupiterService.getSwapInstructions
(src/unnamed/part_003, swapInstructionRequest). -/
structure QuoteGetRequest where
  inputMint : String
  outputMint : String
  amount : Int
  slippageBps : Option Nat
  autoSlippage : Bool
  maxAutoSlippageBps : Nat
  autoSlippageCollisionUsdValue : Nat
  maxAccounts : Nat
  deriving Repr, DecidableEq

/-- The quote provider's answer: route instructions, the quoted output amount
and the context slot (optional, the source applies a 0 default). -/
structure QuoteResult where
  instructions : List Instruction
  outAmount : Nat
  contextSlot : Option Nat
  deriving Repr, DecidableEq

/-- The errors the pipeline throws, one constructor per thrown message in the
source (plus the spec-modelled FeeService rejections). -/
inductive Err where
  | sellTokenAccountMissing
  | slippageTooHigh
  | slippageTooLow
  | belowMinTradeSize
  | negativeFeeAmount
  | quoteFailed (msg : String)
  | noSwapInstruction
  | invalidSwapType
  | buildFailed (e : Err)
  | buildExhausted
  | txNotFoundInRegistry
  | submissionFailed (msg : String)
  | activeSwapRequestNotSet
  | cfgNotSet
  | noActiveStreamToUpdate
  | noActiveStreamFound
  | insufficientUsdcBalance
  | invalidTransferRequest
  deriving Repr, DecidableEq

/-- TransactionRegistryData from src/unnamed/part_002: the rebuild metadata
stored with a registered transaction, including the snapshot of the original
request and the policy config captured at build time. -/
structure TransactionRegistryData where
  timestamp : Nat
  transactionType : TransactionType
  autoSlippage : Bool
  contextSlot : Nat
  buildAttempts : Nat
  activeSwapRequest : Option ActiveSwapRequest
  cfg : Option Config
  deriving Repr, DecidableEq

/-- TransactionRegistryEntry from src/unnamed/part_002: the registry data plus
the compiled message (modelled by its instruction list) and the last valid
block height. -/
structure TransactionRegistryEntry extends TransactionRegistryData where
  message : List Instruction
  lastValidBlockHeight : Nat
  deriving Repr, DecidableEq

/-- PrebuildSwapResponse from src/unnamed/part_002. -/
structure PrebuildSwapResponse where
  transactionMessageBase64 : String
  buyTokenId : String
  sellTokenId : String
  sellQuantity : Nat
  slippageBps : Option Nat
  hasFee : Bool
  timestamp : Nat
  deriving Repr, DecidableEq

/-- PrebuildSignedSwapResponse from src/unnamed/part_002: swap response plus
the fee payer's signature. -/
structure PrebuildSignedSwapResponse extends PrebuildSwapResponse where
  feePayerSignature : String
  deriving Repr, DecidableEq

/-- Outcome of Service.signAndSendTransaction: a success response, a rebuild
response carrying a freshly built swap, or a thrown error. -/
inductive SubmitResult where
  | success (txid : String)
  | rebuild (resp : PrebuildSwapResponse)
  | thrown (e : Err)
  deriving Repr, DecidableEq

/-- An association list keyed by strings: the model of the JS Maps used for
the transaction registry and the per-user swap subscriptions. -/
abbrev AList (β : Type) := List (String × β)

/-- Lookup in an association list (Map.get). -/
def alGet {β : Type} : AList β → String → Option β
  | [], _ => none
  | (k2, v) :: rest, k => if k2 = k then some v else alGet rest k

/-- Deletion from an association list (Map.delete). -/
def alDelete {β : Type} : AList β → String → AList β
  | [], _ => []
  | (k2, v) :: rest, k =>
    if k2 = k then alDelete rest k else (k2, v) :: alDelete rest k

/-- Insertion / replacement in an association list (Map.set). -/
def alSet {β : Type} (st : AList β) (k : String) (v : β) : AList β :=
  (k, v) :: alDelete st k

/-- The transaction registry: base64-encoded compiled message to entry. -/
abbrev Registry := AList TransactionRegistryEntry

/-- The external collaborators of the swap pipeline, as oracles: the
transaction-type classifier's verdict, the quote provider (indexed by the
build attempt so that distinct attempts may observe distinct market answers),
the rent-reassignment and compute-budget transforms, chain data, the message
encoder and the fee-payer signer. -/
structure Externals where
  txType : TransactionType
  quote : Nat → QuoteGetRequest → Except String QuoteResult
  reassignRent : List Instruction → List Instruction
  optimize : List Instruction → List Instruction
  lastValidBlockHeight : Nat
  encode : List Instruction → String
  sign : List Instruction → String
  now : Nat

/-- TypeScript truthiness of the optional numeric slippageBps field: an
explicit 0 is falsy, exactly as in the source's conditionals. -/
def truthy : Option Nat → Bool
  | none => false
  | some n => n != 0

/-- Fee-bps tier per transaction type (the BUY tier vs the SELL tier). -/
def feeBps : TransactionType → Config → Nat
  | .BUY, cfg => cfg.BUY_FEE_BPS
  | .SELL_PARTIAL, cfg => cfg.SELL_FEE_BPS
  | .SELL_ALL, cfg => cfg.SELL_FEE_BPS
  | .TRANSFER, _ => 0

/-- Modelled from the spec: FeeService.calculateFeeAmount is not in the
excerpted source.  Per the spec it applies the fee-bps tier for BUY vs SELL,
enforces minTradeSize (rejecting quantities below the threshold), and its
result is at most the quantity. -/
def calculateFeeAmount (quantity : Nat) (t : TransactionType) (cfg : Config) :
    Except Err Nat :=
  if quantity < cfg.MIN_TRADE_SIZE then .error .belowMinTradeSize
  else .ok (min (quantity * feeBps t cfg / 10000) quantity)

/-- Modelled from the spec: FeeService.createFeeTransferInstruction is not in
the excerpted source.  Per the spec it builds one instruction moving the
amount to the configured fee recipient and fails if the amount is negative. -/
def createFeeTransferInstruction (fromAccount : String) (owner : String)
    (amount : Int) : Except Err Instruction :=
  if amount < 0 then .error .negativeFeeAmount
  else .ok (.feeTransfer fromAccount owner amount)

/-- Modelled from the spec: TransactionService.createTokenCloseInstruction is
not in the excerpted source.  Per the spec (and the call-site comment in
src/unnamed/part_003) the close instruction is emitted only for SELL_ALL
swaps, to reclaim rent. -/
def createTokenCloseInstruction (userPublicKey : String)
    (sellTokenAccount : String) (sellTokenId : String) (sellQuantity : Nat)
    (t : TransactionType) : Option Instruction :=
  if t = .SELL_ALL then some (.tokenClose sellTokenAccount userPublicKey)
  else none

/-- SwapService.organizeInstructions (src/unnamed/part_003, lines 193-206):
the route instructions in order, then the fee transfer when present, then the
token-account close when present. -/
def organizeInstructions (swapInstructions : List Instruction)
    (feeTransferInstruction : Option Instruction)
    (tokenCloseInstruction : Option Instruction) : List Instruction :=
  swapInstructions ++ feeTransferInstruction.toList ++ tokenCloseInstruction.toList

/-- The resolved slippage policy (src/unnamed/part_003, lines 82-91). -/
structure SlippageSettings where
  slippageBps : Option Nat
  autoSlippage : Bool
  maxAutoSlippageBps : Nat
  autoSlippageCollisionUsdValue : Nat
  deriving Repr, DecidableEq

/-- Slippage resolution with the source's priority: a truthy user value wins,
otherwise auto-slippage when enabled, otherwise the fixed default. -/
def slippageSettingsOf (request : ActiveSwapRequest) (cfg : Config) :
    SlippageSettings :=
  { slippageBps :=
      if truthy request.slippageBps then request.slippageBps
      else if cfg.AUTO_SLIPPAGE then none else some cfg.MAX_DEFAULT_SLIPPAGE_BPS
    autoSlippage := if truthy request.slippageBps then false else cfg.AUTO_SLIPPAGE
    maxAutoSlippageBps := cfg.MAX_AUTO_SLIPPAGE_BPS
    autoSlippageCollisionUsdValue := cfg.AUTO_SLIPPAGE_COLLISION_USD_VALUE }

/-- The quote request assembled by buildSwapResponse for a given (already
fee-deducted) swap amount (src/unnamed/part_003, lines 96-108). -/
def swapInstructionRequestOf (request : ActiveSwapRequest) (cfg : Config)
    (swapAmount : Int) : QuoteGetRequest :=
  let s := slippageSettingsOf request cfg
  { inputMint := request.sellTokenId
    outputMint := request.buyTokenId
    amount := swapAmount
    slippageBps := s.slippageBps
    autoSlippage := s.autoSlippage
    maxAutoSlippageBps := s.maxAutoSlippageBps
    autoSlippageCollisionUsdValue := s.autoSlippageCollisionUsdValue
    maxAccounts := cfg.MAX_ACCOUNTS }

/-- The fee-transfer instruction branch of buildSwapResponse
(src/unnamed/part_003, lines 120-138): for a BUY the up-front fee moves out of
the sell token account; for a SELL the fee is computed from the quoted output
amount and moves out of the buy token account; any other type is invalid. -/
def feeTransferInstructionFor (request : ActiveSwapRequest)
    (sellTokenAccount : String) (cfg : Config) (t : TransactionType)
    (buyFeeAmount : Nat) (quoteOutAmount : Nat) : Except Err Instruction :=
  match t with
  | .BUY => createFeeTransferInstruction sellTokenAccount request.userPublicKey
      (buyFeeAmount : Int)
  | .SELL_ALL =>
    match calculateFeeAmount quoteOutAmount t cfg with
    | .error e => .error e
    | .ok sellFeeAmount => createFeeTransferInstruction request.buyTokenAccount
        request.userPublicKey (sellFeeAmount : Int)
  | .SELL_PARTIAL =>
    match calculateFeeAmount quoteOutAmount t cfg with
    | .error e => .error e
    | .ok sellFeeAmount => createFeeTransferInstruction request.buyTokenAccount
        request.userPublicKey (sellFeeAmount : Int)
  | .TRANSFER => .error .invalidSwapType

/-- Everything buildSwapResponse computes before registering: the quote
request and answer, the fee amounts and instructions, the organized and
optimized instruction lists, and the registry metadata. -/
structure BuildOutcome where
  quoteRequest : QuoteGetRequest
  quote : QuoteResult
  buyFeeAmount : Nat
  feeTransferInstruction : Instruction
  tokenCloseInstruction : Option Instruction
  organizedInstructions : List Instruction
  optimizedInstructions : List Instruction
  registryData : TransactionRegistryData
  deriving Repr, DecidableEq

/-- The pure part of SwapService.buildSwapResponse (src/unnamed/part_003,
lines 41-165): the guards, fee computation, slippage resolution, quoting,
instruction assembly and registry metadata, in the source's order.  The final
registration step is applied on top by buildSwapResponse. -/
def buildSwapCore (ext : Externals) (request : ActiveSwapRequest) (cfg : Config)
    (buildAttempt : Nat) : Except Err BuildOutcome :=
  match request.sellTokenAccount with
  | none => .error .sellTokenAccountMissing
  | some sellTokenAccount =>
    if truthy request.slippageBps ∧
        request.slippageBps.getD 0 > cfg.USER_SLIPPAGE_BPS_MAX then
      .error .slippageTooHigh
    else if truthy request.slippageBps ∧
        request.slippageBps.getD 0 < cfg.MIN_SLIPPAGE_BPS then
      .error .slippageTooLow
    else
      let transactionType := ext.txType
      match (if transactionType = .BUY then
          calculateFeeAmount request.sellQuantity transactionType cfg
        else .ok 0) with
      | .error e => .error e
      | .ok buyFeeAmount =>
        let swapAmount : Int := (request.sellQuantity : Int) - (buyFeeAmount : Int)
        let tokenCloseInstruction := createTokenCloseInstruction
          request.userPublicKey sellTokenAccount request.sellTokenId
          request.sellQuantity transactionType
        let slippageSettings := slippageSettingsOf request cfg
        let swapInstructionRequest := swapInstructionRequestOf request cfg swapAmount
        match ext.quote buildAttempt swapInstructionRequest with
        | .error m => .error (.quoteFailed m)
        | .ok q =>
          if q.instructions.isEmpty then .error .noSwapInstruction
          else
            match feeTransferInstructionFor request sellTokenAccount cfg
                transactionType buyFeeAmount q.outAmount with
            | .error e => .error e
            | .ok feeTransferInstruction =>
              let organized := organizeInstructions q.instructions
                (some feeTransferInstruction) tokenCloseInstruction
              let rentReassigned := ext.reassignRent organized
              let optimized := ext.optimize rentReassigned
              .ok { quoteRequest := swapInstructionRequest
                    quote := q
                    buyFeeAmount := buyFeeAmount
                    feeTransferInstruction := feeTransferInstruction
                    tokenCloseInstruction := tokenCloseInstruction
                    organizedInstructions := organized
                    optimizedInstructions := optimized
                    registryData :=
                      { timestamp := ext.now
                        transactionType := transactionType
                        autoSlippage := slippageSettings.autoSlippage
                        contextSlot := q.contextSlot.getD 0
                        buildAttempts := buildAttempt
                        activeSwapRequest := some request
                        cfg := some cfg } }

/-- Modelled from the spec: TransactionService.buildAndRegisterTransactionMessage
is not in the excerpted source.  Per the spec it compiles the instructions into
a message, registers the entry under the message's canonical (base64) encoding,
and returns that encoding. -/
def buildAndRegisterTransactionMessage (ext : Externals)
    (instructions : List Instruction) (data : TransactionRegistryData)
    (st : Registry) : String × Registry :=
  let base64Message := ext.encode instructions
  (base64Message,
    alSet st base64Message
      { toTransactionRegistryData := data
        message := instructions
        lastValidBlockHeight := ext.lastValidBlockHeight })

/-- SwapService.buildSwapResponse (src/unnamed/part_003, lines 41-182): the
core build followed by registration; the response carries the encoded message,
the request fields, hasFee (the fee transfer instruction is always present on
success) and a timestamp. -/
def buildSwapResponse (ext : Externals) (request : ActiveSwapRequest)
    (cfg : Config) (buildAttempt : Nat) (st : Registry) :
    Except Err (PrebuildSwapResponse × Registry) :=
  match buildSwapCore ext request cfg buildAttempt with
  | .error e => .error e
  | .ok out =>
    let reg := buildAndRegisterTransactionMessage ext out.optimizedInstructions
      out.registryData st
    .ok ({ transactionMessageBase64 := reg.1
           buyTokenId := request.buyTokenId
           sellTokenId := request.sellTokenId
           sellQuantity := request.sellQuantity
           slippageBps := request.slippageBps
           hasFee := true
           timestamp := ext.now }, reg.2)

/-- The body of Service.buildSwapResponseWithRebuild's for-loop
(src/src/services/TransferService.ts, lines 394-411), in fuel-recursion form:
one iteration per remaining attempt; on success return; on failure stop (with
the decorated error) when the attempt number reached the budget or the user
pinned a slippage value, otherwise continue.  The list collects the attempt
numbers at which the assembler was invoked. -/
def rebuildLoop (ext : Externals) (request : ActiveSwapRequest) (cfg : Config)
    (buildAttempt : Nat) (st : Registry) :
    Nat → List Nat × Except Err (PrebuildSwapResponse × Registry)
  | 0 => ([], .error .buildExhausted)
  | fuel + 1 =>
    match buildSwapResponse ext request cfg buildAttempt st with
    | .ok r => ([buildAttempt], .ok r)
    | .error e =>
      if buildAttempt ≥ cfg.MAX_BUILD_ATTEMPTS ∨ request.slippageBps.isSome then
        ([buildAttempt], .error (.buildFailed e))
      else
        let rest := rebuildLoop ext request cfg (buildAttempt + 1) st fuel
        (buildAttempt :: rest.1, rest.2)

/-- Service.buildSwapResponseWithRebuild: the loop runs attempts
priorBuildAttempts+1 up to cfg.MAX_BUILD_ATTEMPTS. -/
def buildSwapResponseWithRebuild (ext : Externals) (request : ActiveSwapRequest)
    (cfg : Config) (priorBuildAttempts : Nat) (st : Registry) :
    List Nat × Except Err (PrebuildSwapResponse × Registry) :=
  rebuildLoop ext request cfg (priorBuildAttempts + 1) st
    (cfg.MAX_BUILD_ATTEMPTS - priorBuildAttempts)

/-- Service.fetchSwap (src/src/services/TransferService.ts, lines 364-383):
derive the active request and build with the rebuild loop at zero prior
attempts.  Authentication and account derivation are outside the model, so
the active request is taken directly. -/
def fetchSwap (ext : Externals) (request : ActiveSwapRequest) (cfg : Config)
    (st : Registry) : Except Err (PrebuildSwapResponse × Registry) :=
  (buildSwapResponseWithRebuild ext request cfg 0 st).2

/-- Service.fetchPresignedSwap (src/src/services/TransferService.ts, lines
432-451): build via fetchSwap, read the fresh entry back from the registry,
delete it, then sign the stored message with the fee payer. -/
def fetchPresignedSwap (ext : Externals) (request : ActiveSwapRequest)
    (cfg : Config) (st : Registry) :
    Except Err (PrebuildSignedSwapResponse × Registry) :=
  match fetchSwap ext request cfg st with
  | .error e => .error e
  | .ok (resp, st1) =>
    match alGet st1 resp.transactionMessageBase64 with
    | none => .error .txNotFoundInRegistry
    | some entry =>
      let st2 := alDelete st1 resp.transactionMessageBase64
      .ok ({ toPrebuildSwapResponse := resp
             feePayerSignature := ext.sign entry.message }, st2)

/-- Modelled from the spec: TransactionService.signAndSendTransaction is not
in the excerpted source.  Per the spec it attaches the fee-payer and user
signatures to the stored compiled message, submits it, and any code path that
submits a transaction deletes its registry entry in the same logical step it
reads it; the chain's verdict is the oracle argument (a transaction id on
acceptance, an error message on failure, the latter surfacing as a throw). -/
def txServiceSignAndSend (submission : Except String String) (key : String)
    (st : Registry) : Except String String × Registry :=
  (submission, alDelete st key)

/-- Service.signAndSendTransaction (src/src/services/TransferService.ts,
lines 498-545): look the entry up; submit; on a thrown submission failure,
fail for TRANSFER entries, fail when the attempt budget (read from the live
config) is exhausted or the entry was not built with auto-slippage, otherwise
delete the stale entry and rebuild from the snapshot stored in the entry. -/
def serviceSignAndSendTransaction (ext : Externals)
    (submission : Except String String) (liveCfg : Config) (key : String)
    (st : Registry) : SubmitResult × Registry :=
  match alGet st key with
  | none => (.thrown .txNotFoundInRegistry, st)
  | some entry =>
    match txServiceSignAndSend submission key st with
    | (.ok txid, st1) => (.success txid, st1)
    | (.error e, st1) =>
      if entry.transactionType = .TRANSFER then
        (.thrown (.submissionFailed e), st1)
      else if entry.buildAttempts + 1 ≥ liveCfg.MAX_BUILD_ATTEMPTS ∨
          entry.autoSlippage = false then
        (.thrown (.submissionFailed e), st1)
      else
        match entry.activeSwapRequest, entry.cfg with
        | none, _ => (.thrown .activeSwapRequestNotSet, st1)
        | some _, none => (.thrown .cfgNotSet, st1)
        | some req, some snapshot =>
          let st2 := alDelete st1 key
          match (buildSwapResponseWithRebuild ext req snapshot
              entry.buildAttempts st2).2 with
          | .ok (resp, st3) => (.rebuild resp, st3)
          | .error e2 => (.thrown e2, st2)

/-- A per-user swap subscription (src/unnamed/part_002, SwapSubscription): the
output subject is modelled by an identifier, together with the current active
request.  The rxjs interval subscription has no observable state beyond the
stored request, which each tick re-reads. -/
structure SwapSubscriptionEntry where
  subjectId : Nat
  request : ActiveSwapRequest
  deriving Repr, DecidableEq

/-- The per-user swap stream map (SwapService.swapSubscriptions). -/
abbrev Streams := AList SwapSubscriptionEntry

/-- SwapService.hasActiveStream. -/
def hasActiveStream (streams : Streams) (userId : String) : Bool :=
  (alGet streams userId).isSome

/-- SwapService.getActiveRequest. -/
def getActiveRequest (streams : Streams) (userId : String) :
    Option ActiveSwapRequest :=
  (alGet streams userId).map (·.request)

/-- SwapService.updateActiveRequest (src/unnamed/part_003, lines 254-260):
requires an existing stream, then replaces the stored request. -/
def updateActiveRequest (streams : Streams) (userId : String)
    (request : ActiveSwapRequest) : Except Err Streams :=
  match alGet streams userId with
  | none => .error .noActiveStreamFound
  | some sub => .ok (alSet streams userId { sub with request := request })

/-- SwapService.startSwapStream (src/unnamed/part_003, lines 270-294): when
the user has no subscription, create one (the fresh subject id models the new
Subject); otherwise leave the map untouched.  Either way return the subject
now stored for the user. -/
def startSwapStream (freshSubjectId : Nat) (streams : Streams)
    (userId : String) (request : ActiveSwapRequest) :
    Option Nat × Streams :=
  let streams1 :=
    if (alGet streams userId).isSome then streams
    else alSet streams userId { subjectId := freshSubjectId, request := request }
  ((alGet streams1 userId).map (·.subjectId), streams1)

/-- SwapService.stopSwapStream (src/unnamed/part_003, lines 301-308). -/
def stopSwapStream (streams : Streams) (userId : String) : Streams :=
  alDelete streams userId

/-- One tick of the interval stream created by startSwapStream
(src/unnamed/part_003, lines 277-282): re-read the stored request for the
user; emit nothing when it is gone, otherwise build a swap response from the
stored request at build attempt 0. -/
def streamTick (ext : Externals) (cfg : Config) (streams : Streams)
    (userId : String) (st : Registry) :
    Option (Except Err (PrebuildSwapResponse × Registry)) :=
  match getActiveRequest streams userId with
  | none => none
  | some currentRequest => some (buildSwapResponse ext currentRequest cfg 0 st)

/-- Service.updateSwapRequest (src/src/services/TransferService.ts, lines
567-593): fail when the user has no active stream; otherwise fetch a new swap
(building and registering a transaction) and replace the stored active
request. -/
def serviceUpdateSwapRequest (ext : Externals) (userId : String)
    (request : ActiveSwapRequest) (cfg : Config) (streams : Streams)
    (st : Registry) : Except Err PrebuildSwapResponse × Streams × Registry :=
  if hasActiveStream streams userId = false then
    (.error .noActiveStreamToUpdate, streams, st)
  else
    match fetchSwap ext request cfg st with
    | .error e => (.error e, streams, st)
    | .ok (resp, st1) =>
      match updateActiveRequest streams userId request with
      | .error e => (.error e, streams, st1)
      | .ok streams1 => (.ok resp, streams1, st1)

/-- The USDC mint address recognized by TransferService.getTransfer. -/
def USDC_MAINNET_PUBLIC_KEY : String :=
  "EPjFWdd5AufqSSqeM2qN1xzybapC8G4wEGGkZwyTDt1v"

/-- The associated token account derivation (getAssociatedTokenAddressSync),
modelled as a deterministic injective tagging of mint and owner. -/
def deriveATA (mint : String) (owner : String) : String :=
  "ata/" ++ mint ++ "/" ++ owner

/-- TransferRequest from src/src/services/TransferService.ts. -/
structure TransferRequest where
  fromAddress : String
  toAddress : String
  amount : Nat
  tokenId : String
  deriving Repr, DecidableEq

/-- The external collaborators of TransferService.getTransfer: the chain
balances read before building, the rent-exemption cost, the FeeService
conversion of that cost into USDC base units (price-dependent, hence an
oracle), chain data and the encoder. -/
structure TransferExternals where
  toTokenAccountSolBalance : Nat
  fromTokenAccountUsdcBalance : Nat
  rentExemptionAmountLamports : Nat
  rentFeeUsdcBaseUnits : Nat → Nat
  slot : Nat
  lastValidBlockHeight : Nat
  encode : List Instruction → String
  now : Nat
  feePayer : String

/-- Modelled from the spec: TransactionService.registerTransaction is not in
the excerpted source.  Per the spec it registers the compiled message under
its canonical encoding; TransferService calls it with type TRANSFER,
autoSlippage false, the finalized slot, build attempt 1 and no snapshot. -/
def registerTransaction (ext : TransferExternals) (message : List Instruction)
    (st : Registry) : String × Registry :=
  let base64Message := ext.encode message
  (base64Message,
    alSet st base64Message
      { timestamp := ext.now
        transactionType := .TRANSFER
        autoSlippage := false
        contextSlot := ext.slot
        buildAttempts := 1
        activeSwapRequest := none
        cfg := none
        message := message
        lastValidBlockHeight := ext.lastValidBlockHeight })

/-- TransferService.getTransfer (src/src/services/TransferService.ts, lines
62-159): a SOL transfer is a single system transfer; a USDC transfer adds the
compute-budget instructions, creates the destination's token account when it
is missing — charging the rent-exemption fee back to the sender after
verifying it against the sender's pre-transfer USDC balance — and any other
token is rejected.  The assembled instructions are registered as a TRANSFER
entry; on a thrown error the registry is returned unchanged. -/
def getTransfer (ext : TransferExternals) (request : TransferRequest)
    (st : Registry) : Except Err String × Registry :=
  if request.tokenId = "SOLANA" then
    let transferInstruction := Instruction.solTransfer request.fromAddress
      request.toAddress request.amount
    let reg := registerTransaction ext [transferInstruction] st
    (.ok reg.1, reg.2)
  else if request.tokenId = USDC_MAINNET_PUBLIC_KEY then
    let fromTokenAccount := deriveATA request.tokenId request.fromAddress
    let toTokenAccount := deriveATA request.tokenId request.toAddress
    let transferInstruction := Instruction.tokenTransfer fromTokenAccount
      toTokenAccount request.fromAddress request.amount
    if ext.toTokenAccountSolBalance = 0 then
      let createATAInstruction := Instruction.createATA ext.feePayer
        toTokenAccount request.toAddress request.tokenId
      let rentExemptionFeeAmountUsdcBaseUnits :=
        ext.rentFeeUsdcBaseUnits ext.rentExemptionAmountLamports
      if ext.fromTokenAccountUsdcBalance < rentExemptionFeeAmountUsdcBaseUnits then
        (.error .insufficientUsdcBalance, st)
      else
        match createFeeTransferInstruction fromTokenAccount request.fromAddress
            (rentExemptionFeeAmountUsdcBaseUnits : Int) with
        | .error e => (.error e, st)
        | .ok createATAFeeInstruction =>
          let allInstructions := [Instruction.computeUnitLimit 40000,
            Instruction.computeUnitPrice 100000, createATAInstruction,
            transferInstruction, createATAFeeInstruction]
          let reg := registerTransaction ext allInstructions st
          (.ok reg.1, reg.2)
    else
      let allInstructions := [Instruction.computeUnitLimit 40000,
        Instruction.computeUnitPrice 100000, transferInstruction]
      let reg := registerTransaction ext allInstructions st
      (.ok reg.1, reg.2)
  else
    (.error .invalidTransferRequest, st)

/-! Concrete fixtures used by witnesses and counterexamples. -/

/-- A representative policy configuration: auto-slippage enabled, three build
attempts, a 1% buy fee and no sell fee. -/
def cfgStd : Config :=
  { MIN_SLIPPAGE_BPS := 50
    USER_SLIPPAGE_BPS_MAX := 1500
    MAX_DEFAULT_SLIPPAGE_BPS := 300
    MAX_AUTO_SLIPPAGE_BPS := 500
    AUTO_SLIPPAGE_COLLISION_USD_VALUE := 1000
    AUTO_SLIPPAGE := true
    MAX_ACCOUNTS := 64
    MAX_BUILD_ATTEMPTS := 3
    BUY_FEE_BPS := 100
    SELL_FEE_BPS := 0
    MIN_TRADE_SIZE := 15 }

/-- The same configuration with auto-slippage disabled. -/
def cfgNoAuto : Config := { cfgStd with AUTO_SLIPPAGE := false }

/-- The same configuration with a build-attempt budget of 2. -/
def cfgMax2 : Config := { cfgStd with MAX_BUILD_ATTEMPTS := 2 }

/-- The same configuration with a different minimum slippage (same budget). -/
def cfgMin99 : Config := { cfgStd with MIN_SLIPPAGE_BPS := 99 }

/-- A swap request with no user-pinned slippage. -/
def reqAuto : ActiveSwapRequest :=
  { buyTokenId := "TOKB"
    sellTokenId := "TOKS"
    sellQuantity := 1000000
    slippageBps := none
    buyTokenAccount := "buyAcct"
    sellTokenAccount := some "sellAcct"
    userPublicKey := "user" }

/-- The same request with slippageBps explicitly 0 (falsy in the source). -/
def reqZeroSlip : ActiveSwapRequest := { reqAuto with slippageBps := some 0 }

/-- The same request with an explicit in-range slippage. -/
def reqExplicit : ActiveSwapRequest := { reqAuto with slippageBps := some 100 }

/-- Benign externals: a BUY classification, a quote answering two route
instructions, identity transforms and a constant message encoding. -/
def extStd : Externals :=
  { txType := .BUY
    quote := fun _ _ =>
      .ok { instructions := [.route 0, .route 1], outAmount := 500000,
            contextSlot := some 42 }
    reassignRent := id
    optimize := id
    lastValidBlockHeight := 777
    encode := fun _ => "key1"
    sign := fun _ => "sig1"
    now := 99 }

/-- Externals whose encoder yields a key distinct from the consumed one. -/
def extFresh : Externals := { extStd with encode := fun _ => "fresh" }

/-- A registered swap entry fixture (auto-slippage BUY at attempt 1 with the
standard snapshot). -/
def entryStd : TransactionRegistryEntry :=
  { timestamp := 99
    transactionType := .BUY
    autoSlippage := true
    contextSlot := 42
    buildAttempts := 1
    activeSwapRequest := some reqAuto
    cfg := some cfgStd
    message := [.route 0]
    lastValidBlockHeight := 777 }

/-- Transfer externals fixture: destination token account absent, sender
holding 5000 USDC base units, rent fee of 9000 base units. -/
def textStd : TransferExternals :=
  { toTokenAccountSolBalance := 0
    fromTokenAccountUsdcBalance := 5000
    rentExemptionAmountLamports := 2039280
    rentFeeUsdcBaseUnits := fun _ => 9000
    slot := 11
    lastValidBlockHeight := 777
    encode := fun _ => "tkey"
    now := 99
    feePayer := "payer" }

/-- A USDC transfer request fixture. -/
def treqStd : TransferRequest :=
  { fromAddress := "alice"
    toAddress := "bob"
    amount := 1234
    tokenId := USDC_MAINNET_PUBLIC_KEY }

/-- A request pinning a slippage above the configured maximum. -/
def reqHigh : ActiveSwapRequest := { reqAuto with slippageBps := some 2000 }

/-- A registered TRANSFER entry fixture. -/
def entryTransfer : TransactionRegistryEntry :=
  { entryStd with transactionType := .TRANSFER }

/-- A stream map with one active subscription for user "u". -/
def streamsStd : Streams := [("u", { subjectId := 7, request := reqAuto })]

/-! Association-list (JS Map) lemmas. -/

theorem alGet_alDelete_self {β : Type} (st : AList β) (k : String) :
    alGet (alDelete st k) k = none := by
  induction st with
  | nil => rfl
  | cons p rest ih =>
    obtain ⟨k2, v⟩ := p
    by_cases h : k2 = k
    · simp [alDelete, h, ih]
    · simp [alDelete, alGet, h, ih]

theorem alGet_alDelete_ne {β : Type} (st : AList β) (k k2 : String)
    (h : k ≠ k2) : alGet (alDelete st k) k2 = alGet st k2 := by
  induction st with
  | nil => rfl
  | cons p rest ih =>
    obtain ⟨k3, v⟩ := p
    by_cases h3 : k3 = k
    · subst h3
      simp [alDelete, alGet, h, ih]
    · by_cases h4 : k3 = k2 <;> simp [alDelete, alGet, h3, h4, Ne.symm h, ih]

theorem alGet_alSet_self {β : Type} (st : AList β) (k : String) (v : β) :
    alGet (alSet st k v) k = some v := by
  simp [alSet, alGet]

theorem alGet_alSet_ne {β : Type} (st : AList β) (k k2 : String) (v : β)
    (h : k ≠ k2) : alGet (alSet st k v) k2 = alGet st k2 := by
  simp [alSet, alGet, h, alGet_alDelete_ne st k k2 h]

theorem alDelete_alDelete {β : Type} (st : AList β) (k : String) :
    alDelete (alDelete st k) k = alDelete st k := by
  induction st with
  | nil => rfl
  | cons p rest ih =>
    obtain ⟨k2, v⟩ := p
    by_cases h : k2 = k <;> simp [alDelete, h, ih]

/-! Structural lemmas about the build pipeline. -/

theorem buildSwapResponse_ok (ext : Externals) (request : ActiveSwapRequest)
    (cfg : Config) (a : Nat) (st : Registry) (resp : PrebuildSwapResponse)
    (st2 : Registry)
    (h : buildSwapResponse ext request cfg a st = .ok (resp, st2)) :
    ∃ out : BuildOutcome, buildSwapCore ext request cfg a = .ok out ∧
      resp.transactionMessageBase64 = ext.encode out.optimizedInstructions ∧
      st2 = alSet st (ext.encode out.optimizedInstructions)
        { toTransactionRegistryData := out.registryData
          message := out.optimizedInstructions
          lastValidBlockHeight := ext.lastValidBlockHeight } := by
  unfold buildSwapResponse at h
  cases hc : buildSwapCore ext request cfg a with
  | error e => rw [hc] at h; cases h
  | ok out =>
    rw [hc] at h
    simp only [buildAndRegisterTransactionMessage] at h
    injection h with h
    injection h with h1 h2
    exact ⟨out, rfl, by rw [← h1], h2.symm⟩

theorem buildSwapCore_fields (ext : Externals) (request : ActiveSwapRequest)
    (cfg : Config) (a : Nat) (out : BuildOutcome)
    (h : buildSwapCore ext request cfg a = .ok out) :
    out.registryData.buildAttempts = a ∧
    out.registryData.transactionType = ext.txType ∧
    out.registryData.activeSwapRequest = some request ∧
    out.registryData.cfg = some cfg ∧
    out.registryData.autoSlippage = (slippageSettingsOf request cfg).autoSlippage := by
  unfold buildSwapCore at h
  dsimp only [] at h
  repeat' split at h
  all_goals cases h
  all_goals exact ⟨rfl, rfl, rfl, rfl, rfl⟩

theorem buildSwapResponse_entry (ext : Externals) (request : ActiveSwapRequest)
    (cfg : Config) (a : Nat) (st : Registry) (resp : PrebuildSwapResponse)
    (st2 : Registry)
    (h : buildSwapResponse ext request cfg a st = .ok (resp, st2)) :
    ∃ e : TransactionRegistryEntry,
      alGet st2 resp.transactionMessageBase64 = some e ∧ e.buildAttempts = a := by
  obtain ⟨out, hc, hkey, hst⟩ := buildSwapResponse_ok ext request cfg a st resp st2 h
  subst hst
  rw [hkey]
  exact ⟨_, alGet_alSet_self _ _ _, (buildSwapCore_fields ext request cfg a out hc).1⟩

theorem buildSwapResponse_preserves_absent (ext : Externals)
    (request : ActiveSwapRequest) (cfg : Config) (a : Nat) (st : Registry)
    (key : String) (resp : PrebuildSwapResponse) (st2 : Registry)
    (hne : ∀ instrs, ext.encode instrs ≠ key)
    (h0 : alGet st key = none)
    (h : buildSwapResponse ext request cfg a st = .ok (resp, st2)) :
    alGet st2 key = none := by
  obtain ⟨out, hc, hkey, hst⟩ := buildSwapResponse_ok ext request cfg a st resp st2 h
  subst hst
  rw [alGet_alSet_ne _ _ _ _ (hne _), h0]

theorem rebuildLoop_preserves_absent (ext : Externals)
    (request : ActiveSwapRequest) (cfg : Config) (key : String)
    (hne : ∀ instrs, ext.encode instrs ≠ key) :
    ∀ (fuel a : Nat) (st : Registry), alGet st key = none →
    ∀ (resp : PrebuildSwapResponse) (st2 : Registry),
      (rebuildLoop ext request cfg a st fuel).2 = .ok (resp, st2) →
      alGet st2 key = none := by
  intro fuel
  induction fuel with
  | zero => intro a st h0 resp st2 h; cases h
  | succ n ih =>
    intro a st h0 resp st2 h
    simp only [rebuildLoop] at h
    cases hb : buildSwapResponse ext request cfg a st with
    | ok r =>
      simp only [hb] at h
      rw [show r = (resp, st2) by injection h] at hb
      exact buildSwapResponse_preserves_absent ext request cfg a st key resp st2
        hne h0 hb
    | error e =>
      simp only [hb] at h
      by_cases hc : a ≥ cfg.MAX_BUILD_ATTEMPTS ∨ request.slippageBps.isSome
      · rw [if_pos hc] at h
        simp at h
      · rw [if_neg hc] at h
        exact ih (a + 1) st h0 resp st2 h

theorem rebuildLoop_shape (ext : Externals) (request : ActiveSwapRequest)
    (cfg : Config) :
    ∀ (fuel a : Nat) (st : Registry),
      (rebuildLoop ext request cfg a st fuel).1 =
        List.range' a (rebuildLoop ext request cfg a st fuel).1.length ∧
      (rebuildLoop ext request cfg a st fuel).1.length ≤ fuel := by
  intro fuel
  induction fuel with
  | zero => intro a st; exact ⟨rfl, Nat.le_refl 0⟩
  | succ n ih =>
    intro a st
    cases hb : buildSwapResponse ext request cfg a st with
    | ok r => simp [rebuildLoop, hb, List.range'_succ]
    | error e =>
      by_cases hc : a ≥ cfg.MAX_BUILD_ATTEMPTS ∨ request.slippageBps.isSome
      · simp [rebuildLoop, hb, hc, List.range'_succ]
      · obtain ⟨ih1, ih2⟩ := ih (a + 1) st
        simp only [rebuildLoop, hb, hc, if_false, List.length_cons,
          List.range'_succ]
        refine ⟨?_, ?_⟩
        · rw [← ih1]
        · simpa using Nat.succ_le_succ ih2

theorem rebuildLoop_explicit (ext : Externals) (request : ActiveSwapRequest)
    (cfg : Config) (hs : request.slippageBps.isSome) :
    ∀ (fuel a : Nat) (st : Registry), 1 ≤ fuel →
      (rebuildLoop ext request cfg a st fuel).1.length = 1 := by
  intro fuel a st hf
  cases fuel with
  | zero => omega
  | succ n =>
    cases hb : buildSwapResponse ext request cfg a st with
    | ok r => simp [rebuildLoop, hb]
    | error e => simp [rebuildLoop, hb, hs]

theorem rebuildLoop_entry (ext : Externals) (request : ActiveSwapRequest)
    (cfg : Config) :
    ∀ (fuel a : Nat) (st : Registry) (resp : PrebuildSwapResponse)
      (st2 : Registry),
      (rebuildLoop ext request cfg a st fuel).2 = .ok (resp, st2) →
      1 ≤ (rebuildLoop ext request cfg a st fuel).1.length ∧
      ∃ e, alGet st2 resp.transactionMessageBase64 = some e ∧
        e.buildAttempts + 1 = a + (rebuildLoop ext request cfg a st fuel).1.length := by
  intro fuel
  induction fuel with
  | zero => intro a st resp st2 h; cases h
  | succ n ih =>
    intro a st resp st2 h
    cases hb : buildSwapResponse ext request cfg a st with
    | ok r =>
      simp only [rebuildLoop, hb] at h ⊢
      rw [show r = (resp, st2) by injection h] at hb
      obtain ⟨e, he, hba⟩ := buildSwapResponse_entry ext request cfg a st resp st2 hb
      exact ⟨by simp, e, he, by simp [hba]⟩
    | error e0 =>
      by_cases hc : a ≥ cfg.MAX_BUILD_ATTEMPTS ∨ request.slippageBps.isSome
      · simp only [rebuildLoop, hb, hc, if_true] at h
        simp at h
      · simp only [rebuildLoop, hb, hc, if_false] at h ⊢
        obtain ⟨hlen, e, he, hba⟩ := ih (a + 1) st resp st2 h
        refine ⟨by simp, e, he, ?_⟩
        simp only [List.length_cons]
        omega

/-! Error-provenance helpers for the fee calculator and fee instruction. -/

theorem calculateFeeAmount_le (q : Nat) (t : TransactionType) (cfg : Config)
    (f : Nat) (h : calculateFeeAmount q t cfg = .ok f) : f ≤ q := by
  unfold calculateFeeAmount at h
  split at h
  · cases h
  · injection h with h
    rw [← h]
    exact Nat.min_le_right _ _

theorem calculateFeeAmount_error_eq (q : Nat) (t : TransactionType)
    (cfg : Config) (e : Err) (h : calculateFeeAmount q t cfg = .error e) :
    e = .belowMinTradeSize := by
  unfold calculateFeeAmount at h
  split at h
  · injection h with h
    exact h.symm
  · cases h

theorem createFeeTransferInstruction_error_eq (acc owner : String)
    (amount : Int) (e : Err)
    (h : createFeeTransferInstruction acc owner amount = .error e) :
    e = .negativeFeeAmount := by
  unfold createFeeTransferInstruction at h
  split at h
  · injection h with h
    exact h.symm
  · cases h

theorem feeTransferInstructionFor_error_shape (request : ActiveSwapRequest)
    (sa : String) (cfg : Config) (t : TransactionType) (bf q : Nat) (e : Err)
    (h : feeTransferInstructionFor request sa cfg t bf q = .error e) :
    e = .belowMinTradeSize ∨ e = .negativeFeeAmount ∨ e = .invalidSwapType := by
  unfold feeTransferInstructionFor at h
  cases t with
  | BUY => exact Or.inr (Or.inl (createFeeTransferInstruction_error_eq _ _ _ _ h))
  | SELL_ALL =>
    cases hc : calculateFeeAmount q .SELL_ALL cfg with
    | error e2 =>
      rw [hc] at h
      injection h with h
      exact Or.inl (h ▸ calculateFeeAmount_error_eq _ _ _ _ hc)
    | ok sf =>
      rw [hc] at h
      exact Or.inr (Or.inl (createFeeTransferInstruction_error_eq _ _ _ _ h))
  | SELL_PARTIAL =>
    cases hc : calculateFeeAmount q .SELL_PARTIAL cfg with
    | error e2 =>
      rw [hc] at h
      injection h with h
      exact Or.inl (h ▸ calculateFeeAmount_error_eq _ _ _ _ hc)
    | ok sf =>
      rw [hc] at h
      exact Or.inr (Or.inl (createFeeTransferInstruction_error_eq _ _ _ _ h))
  | TRANSFER =>
    injection h with h
    exact Or.inr (Or.inr h.symm)

/-- C7: for every list of route instructions and optional fee-transfer and
token-close instructions, the assembled order is exactly the route
instructions in their original order, then the fee transfer when present,
then the token-account close when present; the close instruction is emitted
only for SELL_ALL swaps, and buildSwapCore assembles exactly this order. -/
theorem c7_instruction_order :
    (∀ (swapInstructions : List Instruction) (fee close : Option Instruction),
      organizeInstructions swapInstructions fee close =
        swapInstructions ++ fee.toList ++ close.toList) ∧
    (∀ (u acct mint : String) (q : Nat) (t : TransactionType),
      (createTokenCloseInstruction u acct mint q t).isSome ↔ t = .SELL_ALL) ∧
    (∀ (ext : Externals) (request : ActiveSwapRequest) (cfg : Config) (a : Nat)
        (out : BuildOutcome), buildSwapCore ext request cfg a = .ok out →
      out.organizedInstructions = out.quote.instructions ++
        [out.feeTransferInstruction] ++ out.tokenCloseInstruction.toList ∧
      (out.tokenCloseInstruction.isSome ↔ ext.txType = .SELL_ALL)) := by
  refine ⟨fun s f c => rfl, ?_, ?_⟩
  · intro u acct mint q t
    by_cases hA : t = .SELL_ALL <;> simp [createTokenCloseInstruction, hA]
  · intro ext request cfg a out h
    unfold buildSwapCore at h
    dsimp only [] at h
    repeat' split at h
    all_goals cases h
    all_goals
      exact ⟨by simp [organizeInstructions],
        by by_cases hA : ext.txType = .SELL_ALL <;>
          simp [createTokenCloseInstruction, hA]⟩

/-- Witness for C7 at a concrete BUY build. -/
theorem c7_instruction_order_witness :
    ∃ out : BuildOutcome, buildSwapCore extStd reqAuto cfgStd 1 = .ok out ∧
      out.organizedInstructions = out.quote.instructions ++
        [out.feeTransferInstruction] ++ out.tokenCloseInstruction.toList ∧
      (out.tokenCloseInstruction.isSome ↔ extStd.txType = .SELL_ALL) := by
  obtain ⟨out, hout⟩ : ∃ out, buildSwapCore extStd reqAuto cfgStd 1 = .ok out :=
    ⟨_, rfl⟩
  exact ⟨out, hout, c7_instruction_order.2.2 extStd reqAuto cfgStd 1 out hout⟩

/-- C9: starting a swap stream for a user who already has one is a no-op
returning the same underlying subject, and updateSwapRequest for a user with
no active stream fails with the no-active-stream error without building or
registering anything. -/
theorem c9_stream_discipline (f1 f2 : Nat) (userId : String)
    (r1 r2 : ActiveSwapRequest) (streams : Streams) :
    ((startSwapStream f2 (startSwapStream f1 streams userId r1).2 userId r2).1 =
        (startSwapStream f1 streams userId r1).1 ∧
      (startSwapStream f2 (startSwapStream f1 streams userId r1).2 userId r2).2 =
        (startSwapStream f1 streams userId r1).2) ∧
    (∀ (ext : Externals) (req : ActiveSwapRequest) (cfg : Config) (st : Registry),
      hasActiveStream streams userId = false →
      serviceUpdateSwapRequest ext userId req cfg streams st =
        (.error .noActiveStreamToUpdate, streams, st)) := by
  constructor
  · have key : ∀ st1 : Streams, (alGet st1 userId).isSome = true →
        (startSwapStream f2 st1 userId r2).2 = st1 := by
      intro st1 hsome
      unfold startSwapStream
      simp [hsome]
    have hsome1 : (alGet (startSwapStream f1 streams userId r1).2 userId).isSome = true := by
      unfold startSwapStream
      by_cases hx : (alGet streams userId).isSome
      · simp [hx]
      · simp [hx, alGet_alSet_self]
    have k2 := key (startSwapStream f1 streams userId r1).2 hsome1
    refine ⟨?_, k2⟩
    show (alGet (startSwapStream f2 (startSwapStream f1 streams userId r1).2
        userId r2).2 userId).map (·.subjectId) =
      (alGet (startSwapStream f1 streams userId r1).2 userId).map (·.subjectId)
    rw [k2]
  · intro ext req cfg st h
    unfold serviceUpdateSwapRequest
    rw [if_pos (by rw [h])]

/-- Witness for C9 at a concrete empty stream map. -/
theorem c9_stream_discipline_witness :
    serviceUpdateSwapRequest extStd "u" reqAuto cfgStd [] [] =
      (.error .noActiveStreamToUpdate, [], []) :=
  (c9_stream_discipline 1 2 "u" reqAuto reqAuto []).2 extStd reqAuto cfgStd [] rfl

/-- C10: a second startSwapStream for a user with an active stream discards
its request argument: the stream map (hence the stored active request and
every subsequent tick, which re-reads the stored request) is unchanged, and
the stored request changes only through updateActiveRequest. -/
theorem c10_start_discards_request (fresh : Nat) (userId : String)
    (rNew : ActiveSwapRequest) (streams : Streams)
    (h : hasActiveStream streams userId = true) :
    (startSwapStream fresh streams userId rNew).2 = streams ∧
    getActiveRequest (startSwapStream fresh streams userId rNew).2 userId =
      getActiveRequest streams userId ∧
    (∀ (ext : Externals) (cfg : Config) (st : Registry),
      streamTick ext cfg (startSwapStream fresh streams userId rNew).2 userId st =
        streamTick ext cfg streams userId st) ∧
    (∀ (rNew2 : ActiveSwapRequest) (streams2 : Streams),
      updateActiveRequest streams userId rNew2 = .ok streams2 →
      getActiveRequest streams2 userId = some rNew2) := by
  have hs : (alGet streams userId).isSome = true := h
  have h2 : (startSwapStream fresh streams userId rNew).2 = streams := by
    unfold startSwapStream
    simp [hs]
  refine ⟨h2, by rw [h2], fun ext cfg st => by rw [h2], ?_⟩
  intro rNew2 streams2 hup
  unfold updateActiveRequest at hup
  cases hg : alGet streams userId with
  | none => rw [hg] at hup; cases hup
  | some sub =>
    rw [hg] at hup
    injection hup with hup
    rw [← hup]
    unfold getActiveRequest
    rw [alGet_alSet_self]
    rfl

/-- Witness for C10 at a concrete one-user stream map. -/
theorem c10_start_discards_request_witness :
    (startSwapStream 9 streamsStd "u" reqExplicit).2 = streamsStd ∧
    getActiveRequest (startSwapStream 9 streamsStd "u" reqExplicit).2 "u" =
      getActiveRequest streamsStd "u" := by
  have h := c10_start_discards_request 9 "u" reqExplicit streamsStd rfl
  exact ⟨h.1, h.2.1⟩

/-- C1: a registry key, once read for submission (signAndSendTransaction) or
re-issue (fetchPresignedSwap), is deleted in the same logical step on every
path — success, fatal failure, or rebuild — so a second get of the same key
misses.  The submission half assumes the rebuild's fresh registration encodes
to a different key (a fresh blockhash makes the rebuilt message distinct). -/
theorem c1_consume_once :
    (∀ (ext : Externals) (submission : Except String String) (liveCfg : Config)
        (key : String) (st : Registry),
      (∀ instrs, ext.encode instrs ≠ key) →
      alGet (serviceSignAndSendTransaction ext submission liveCfg key st).2 key =
        none) ∧
    (∀ (ext : Externals) (request : ActiveSwapRequest) (cfg : Config)
        (st : Registry) (resp : PrebuildSignedSwapResponse) (st2 : Registry),
      fetchPresignedSwap ext request cfg st = .ok (resp, st2) →
      alGet st2 resp.transactionMessageBase64 = none) := by
  constructor
  · intro ext submission liveCfg key st hne
    cases hg : alGet st key with
    | none =>
      simp only [serviceSignAndSendTransaction, hg]
    | some entry =>
      cases submission with
      | ok txid =>
        simp only [serviceSignAndSendTransaction, hg, txServiceSignAndSend]
        exact alGet_alDelete_self st key
      | error m =>
        simp only [serviceSignAndSendTransaction, hg, txServiceSignAndSend]
        by_cases h1 : entry.transactionType = .TRANSFER
        · simp [h1, alGet_alDelete_self]
        · by_cases h2 : entry.buildAttempts + 1 ≥ liveCfg.MAX_BUILD_ATTEMPTS ∨
              entry.autoSlippage = false
          · simp [h1, h2, alGet_alDelete_self]
          · simp only [h1, h2, if_false]
            cases hr : entry.activeSwapRequest with
            | none => simp [alGet_alDelete_self]
            | some req =>
              cases hcf : entry.cfg with
              | none => simp [alGet_alDelete_self]
              | some snap =>
                cases hbr : (buildSwapResponseWithRebuild ext req snap
                    entry.buildAttempts
                    (alDelete (alDelete st key) key)).2 with
                | ok r =>
                  obtain ⟨resp, st3⟩ := r
                  simp only [hbr]
                  exact rebuildLoop_preserves_absent ext req snap key hne _ _ _
                    (alGet_alDelete_self _ _) resp st3 hbr
                | error e2 =>
                  simp only [hbr]
                  exact alGet_alDelete_self _ _
  · intro ext request cfg st resp st2 h
    unfold fetchPresignedSwap at h
    cases hf : fetchSwap ext request cfg st with
    | error e => rw [hf] at h; cases h
    | ok p =>
      obtain ⟨resp0, st1⟩ := p
      simp only [hf] at h
      cases hg : alGet st1 resp0.transactionMessageBase64 with
      | none => rw [hg] at h; cases h
      | some entry =>
        simp only [hg] at h
        injection h with h
        injection h with h1 h2
        rw [← h2, ← h1]
        exact alGet_alDelete_self st1 resp0.transactionMessageBase64

/-- Witness for C1: a concrete consumed submission and a concrete presigned
fetch, both leaving the key absent. -/
theorem c1_consume_once_witness :
    alGet (serviceSignAndSendTransaction extFresh (.error "boom") cfgStd "key1"
      [("key1", entryStd)]).2 "key1" = none ∧
    (∃ (resp : PrebuildSignedSwapResponse) (st2 : Registry),
      fetchPresignedSwap extStd reqAuto cfgStd [] = .ok (resp, st2) ∧
      alGet st2 resp.transactionMessageBase64 = none) := by
  constructor
  · exact c1_consume_once.1 extFresh (.error "boom") cfgStd "key1"
      [("key1", entryStd)]
      (fun instrs => by
        show ("fresh" : String) ≠ "key1"
        decide)
  · obtain ⟨p, hp⟩ : ∃ p, fetchPresignedSwap extStd reqAuto cfgStd [] = .ok p :=
      ⟨_, rfl⟩
    obtain ⟨resp, st2⟩ := p
    exact ⟨resp, st2, hp, c1_consume_once.2 extStd reqAuto cfgStd [] resp st2 hp⟩

/-- C4 (amended): the submission classifier and rebuild depend on the live
config only through MAX_BUILD_ATTEMPTS; two runs whose live configs agree on
that field behave identically, and the rebuild itself is driven entirely by
the entry's stored snapshot. -/
theorem c4_rebuild_uses_snapshot (ext : Externals)
    (submission : Except String String) (liveCfg1 liveCfg2 : Config)
    (key : String) (st : Registry)
    (h : liveCfg1.MAX_BUILD_ATTEMPTS = liveCfg2.MAX_BUILD_ATTEMPTS) :
    serviceSignAndSendTransaction ext submission liveCfg1 key st =
      serviceSignAndSendTransaction ext submission liveCfg2 key st := by
  unfold serviceSignAndSendTransaction
  rw [h]

/-- Witness for C4 (amended): two live configs that differ (in the minimum
slippage) but agree on MAX_BUILD_ATTEMPTS give identical runs. -/
theorem c4_rebuild_uses_snapshot_witness :
    serviceSignAndSendTransaction extStd (.error "eB") cfgStd "key1"
        [("key1", entryStd)] =
      serviceSignAndSendTransaction extStd (.error "eB") cfgMin99 "key1"
        [("key1", entryStd)] :=
  c4_rebuild_uses_snapshot extStd (.error "eB") cfgStd cfgMin99 "key1"
    [("key1", entryStd)] rfl

/-- Counterexample to C4 as stated: holding the entry (snapshot) and the
submission failure fixed, changing only the live config's MAX_BUILD_ATTEMPTS
flips the decision from rebuild to fail, so the rebuild decision is not
independent of the live config. -/
theorem c4_counterexample :
    ∃ (resp : PrebuildSwapResponse) (st1 : Registry),
      buildSwapResponse extStd reqAuto cfgStd 1 [] = .ok (resp, st1) ∧
      (∃ r, (serviceSignAndSendTransaction extStd (.error "eB") cfgStd
          "key1" st1).1 = .rebuild r) ∧
      (serviceSignAndSendTransaction extStd (.error "eB") cfgMax2
          "key1" st1).1 = .thrown (.submissionFailed "eB") := by
  refine ⟨_, _, rfl, ⟨_, rfl⟩, rfl⟩

/-- C8: transferring USDC to a recipient with no token account charges the
rent-exemption fee to the sender, verified against the sender's pre-transfer
USDC balance: if the balance is below the fee, getTransfer fails with the
insufficient-balance error and the registry is unchanged (nothing is issued
or registered); otherwise the fee-transfer instruction back to the fee
recipient is part of the registered message. -/
theorem c8_transfer_rent_check (ext : TransferExternals)
    (request : TransferRequest) (st : Registry)
    (htok : request.tokenId = USDC_MAINNET_PUBLIC_KEY)
    (hmissing : ext.toTokenAccountSolBalance = 0) :
    (ext.fromTokenAccountUsdcBalance <
        ext.rentFeeUsdcBaseUnits ext.rentExemptionAmountLamports →
      getTransfer ext request st = (.error .insufficientUsdcBalance, st)) ∧
    (ext.rentFeeUsdcBaseUnits ext.rentExemptionAmountLamports ≤
        ext.fromTokenAccountUsdcBalance →
      ∃ key e, getTransfer ext request st = (.ok key, alSet st key e) ∧
        Instruction.feeTransfer (deriveATA request.tokenId request.fromAddress)
          request.fromAddress
          ((ext.rentFeeUsdcBaseUnits ext.rentExemptionAmountLamports : Int)) ∈
          e.message) := by
  have hsol : ¬ request.tokenId = "SOLANA" := by
    rw [htok]
    decide
  constructor
  · intro hlt
    unfold getTransfer
    rw [if_neg hsol, if_pos htok, if_pos hmissing, if_pos hlt]
  · intro hge
    have hneg : ¬ ((ext.rentFeeUsdcBaseUnits ext.rentExemptionAmountLamports : Int) < 0) :=
      Int.not_lt.mpr (Int.natCast_nonneg _)
    unfold getTransfer
    rw [if_neg hsol, if_pos htok, if_pos hmissing, if_neg (Nat.not_lt.mpr hge)]
    simp only [createFeeTransferInstruction, hneg, if_false, registerTransaction]
    refine ⟨_, _, rfl, ?_⟩
    simp

/-- Witness for C8: a concrete sender balance below the rent fee fails with
the insufficient-balance error and leaves the registry empty. -/
theorem c8_transfer_rent_check_witness :
    getTransfer textStd treqStd [] = (.error .insufficientUsdcBalance, []) :=
  (c8_transfer_rent_check textStd treqStd [] rfl rfl).1 (by decide)

/-- C3: buildSwapResponseWithRebuild invokes the assembler at consecutive
attempt numbers starting at priorAttempts+1, at most
MAX_BUILD_ATTEMPTS - priorAttempts times, every attempt number staying within
the budget (so at most MAX_BUILD_ATTEMPTS builds occur across a chain whose
rebuilds resume from the registered buildAttempts); a request with an
explicit slippageBps gets exactly one build attempt regardless of outcome;
and a successful chain registers its entry at the last attempt number, within
the budget. -/
theorem c3_attempt_budget (ext : Externals) (request : ActiveSwapRequest)
    (cfg : Config) (prior : Nat) (st : Registry) :
    ((buildSwapResponseWithRebuild ext request cfg prior st).1 =
        List.range' (prior + 1)
          (buildSwapResponseWithRebuild ext request cfg prior st).1.length ∧
      (buildSwapResponseWithRebuild ext request cfg prior st).1.length ≤
        cfg.MAX_BUILD_ATTEMPTS - prior) ∧
    (∀ x ∈ (buildSwapResponseWithRebuild ext request cfg prior st).1,
      prior + 1 ≤ x ∧ x ≤ cfg.MAX_BUILD_ATTEMPTS) ∧
    (request.slippageBps.isSome → prior < cfg.MAX_BUILD_ATTEMPTS →
      (buildSwapResponseWithRebuild ext request cfg prior st).1.length = 1) ∧
    (∀ (resp : PrebuildSwapResponse) (st2 : Registry),
      (buildSwapResponseWithRebuild ext request cfg prior st).2 = .ok (resp, st2) →
      ∃ e, alGet st2 resp.transactionMessageBase64 = some e ∧
        e.buildAttempts = prior +
          (buildSwapResponseWithRebuild ext request cfg prior st).1.length ∧
        e.buildAttempts ≤ cfg.MAX_BUILD_ATTEMPTS) := by
  obtain ⟨hshape, hlen⟩ :=
    rebuildLoop_shape ext request cfg (cfg.MAX_BUILD_ATTEMPTS - prior) (prior + 1) st
  have hbounds : ∀ x ∈ (buildSwapResponseWithRebuild ext request cfg prior st).1,
      prior + 1 ≤ x ∧ x ≤ cfg.MAX_BUILD_ATTEMPTS := by
    intro x hx
    unfold buildSwapResponseWithRebuild at hx
    rw [hshape] at hx
    have := List.mem_range'_1.mp hx
    omega
  refine ⟨⟨hshape, hlen⟩, hbounds, ?_, ?_⟩
  · intro hs hp
    exact rebuildLoop_explicit ext request cfg hs (cfg.MAX_BUILD_ATTEMPTS - prior)
      (prior + 1) st (by omega)
  · intro resp st2 h
    obtain ⟨h1, e, he, hba⟩ := rebuildLoop_entry ext request cfg
      (cfg.MAX_BUILD_ATTEMPTS - prior) (prior + 1) st resp st2 h
    have h1b : 1 ≤ (buildSwapResponseWithRebuild ext request cfg prior st).1.length := h1
    have hbab : e.buildAttempts + 1 = prior + 1 +
        (buildSwapResponseWithRebuild ext request cfg prior st).1.length := hba
    refine ⟨e, he, by omega, ?_⟩
    have hshape2 : (buildSwapResponseWithRebuild ext request cfg prior st).1 =
        List.range' (prior + 1)
          (buildSwapResponseWithRebuild ext request cfg prior st).1.length := hshape
    have hmem : e.buildAttempts ∈
        (buildSwapResponseWithRebuild ext request cfg prior st).1 := by
      rw [hshape2]
      exact List.mem_range'_1.mpr ⟨by omega, by omega⟩
    exact (hbounds _ hmem).2

/-- Witness for C3: an explicit-slippage request gets exactly one attempt,
and a successful auto-slippage chain registers its entry within budget. -/
theorem c3_attempt_budget_witness :
    (buildSwapResponseWithRebuild extStd reqExplicit cfgStd 0 []).1.length = 1 ∧
    (∃ (resp : PrebuildSwapResponse) (st2 : Registry)
        (e : TransactionRegistryEntry),
      (buildSwapResponseWithRebuild extStd reqAuto cfgStd 0 []).2 = .ok (resp, st2) ∧
      alGet st2 resp.transactionMessageBase64 = some e ∧
      e.buildAttempts ≤ cfgStd.MAX_BUILD_ATTEMPTS) := by
  constructor
  · exact (c3_attempt_budget extStd reqExplicit cfgStd 0 []).2.2.1 (by decide)
      (by decide)
  · obtain ⟨p, hp⟩ :
        ∃ p, (buildSwapResponseWithRebuild extStd reqAuto cfgStd 0 []).2 = .ok p :=
      ⟨_, rfl⟩
    obtain ⟨resp, st2⟩ := p
    obtain ⟨e, he1, he2, he3⟩ :=
      (c3_attempt_budget extStd reqAuto cfgStd 0 []).2.2.2 resp st2 hp
    exact ⟨resp, st2, e, hp, he1, he3⟩

/-- C2 (amended): on a failing submission, signAndSendTransaction surfaces
the failure exactly when the entry is a TRANSFER, or the entry's autoSlippage
flag is false (which holds when the original request pinned a nonzero
slippageBps, and also when the build-time config had AUTO_SLIPPAGE off), or
entry.buildAttempts + 1 reaches the live config's MAX_BUILD_ATTEMPTS; in
every other failing case it deletes the stale entry and returns the outcome
of rebuilding from the stored snapshot (a rebuild response when that rebuild
succeeds). -/
theorem c2_failure_classification (ext : Externals) (m : String)
    (liveCfg : Config) (key : String) (st : Registry)
    (entry : TransactionRegistryEntry) (req : ActiveSwapRequest) (snap : Config)
    (hget : alGet st key = some entry)
    (hreq : entry.activeSwapRequest = some req)
    (hcfg : entry.cfg = some snap) :
    (entry.transactionType = .TRANSFER ∨ entry.autoSlippage = false ∨
        entry.buildAttempts + 1 ≥ liveCfg.MAX_BUILD_ATTEMPTS →
      serviceSignAndSendTransaction ext (.error m) liveCfg key st =
        (.thrown (.submissionFailed m), alDelete st key)) ∧
    (entry.transactionType ≠ .TRANSFER → entry.autoSlippage = true →
      entry.buildAttempts + 1 < liveCfg.MAX_BUILD_ATTEMPTS →
      serviceSignAndSendTransaction ext (.error m) liveCfg key st =
        (match (buildSwapResponseWithRebuild ext req snap entry.buildAttempts
            (alDelete st key)).2 with
          | .ok (resp, st3) => (.rebuild resp, st3)
          | .error e2 => (.thrown e2, alDelete st key))) := by
  constructor
  · intro hcond
    simp only [serviceSignAndSendTransaction, hget, txServiceSignAndSend]
    by_cases h1 : entry.transactionType = .TRANSFER
    · simp [h1]
    · rcases hcond with hc | hc | hc
      · exact absurd hc h1
      · simp [h1, hc]
      · simp [h1, hc]
  · intro hT hA hB
    have h2 : ¬(entry.buildAttempts + 1 ≥ liveCfg.MAX_BUILD_ATTEMPTS ∨
        entry.autoSlippage = false) := by
      simp only [hA]
      simp
      omega
    simp only [serviceSignAndSendTransaction, hget, txServiceSignAndSend, hT,
      if_false, h2, hreq, hcfg, alDelete_alDelete]

/-- Witness for C2 (amended): a concrete TRANSFER entry's failing submission
surfaces the failure and consumes the entry. -/
theorem c2_failure_classification_witness :
    serviceSignAndSendTransaction extStd (.error "eb") cfgStd "key1"
        [("key1", entryTransfer)] =
      (.thrown (.submissionFailed "eb"),
        alDelete [("key1", entryTransfer)] "key1") :=
  (c2_failure_classification extStd "eb" cfgStd "key1" [("key1", entryTransfer)]
    entryTransfer reqAuto cfgStd rfl rfl rfl).1 (Or.inl rfl)

/-- Counterexample to C2 as stated: an entry built from a request with no
explicit slippageBps under a config with AUTO_SLIPPAGE off is a non-TRANSFER
entry with attempt budget remaining, so the claim says its failing submission
rebuilds; the code surfaces the failure instead, because it gates on the
entry's autoSlippage flag rather than on the request's slippageBps. -/
theorem c2_counterexample :
    ∃ (resp : PrebuildSwapResponse) (st1 : Registry)
      (e : TransactionRegistryEntry),
      buildSwapResponse extStd reqAuto cfgNoAuto 1 [] = .ok (resp, st1) ∧
      alGet st1 "key1" = some e ∧
      e.transactionType ≠ .TRANSFER ∧
      reqAuto.slippageBps = none ∧
      e.buildAttempts + 1 < cfgStd.MAX_BUILD_ATTEMPTS ∧
      (serviceSignAndSendTransaction extStd (.error "eBlockhash") cfgStd "key1"
        st1).1 = .thrown (.submissionFailed "eBlockhash") := by
  refine ⟨_, _, _, rfl, rfl, by decide, rfl, by decide, rfl⟩

theorem createFeeTransferInstruction_ok_eq (acc owner : String) (n : Nat) :
    createFeeTransferInstruction acc owner (n : Int) =
      .ok (.feeTransfer acc owner (n : Int)) := by
  unfold createFeeTransferInstruction
  rw [if_neg (Int.not_lt.mpr (Int.natCast_nonneg n))]

theorem feeTransferInstructionFor_buy_ok (request : ActiveSwapRequest)
    (sa : String) (cfg : Config) (bf q : Nat) (i : Instruction)
    (h : feeTransferInstructionFor request sa cfg .BUY bf q = .ok i) :
    i = .feeTransfer sa request.userPublicKey (bf : Int) := by
  simp only [feeTransferInstructionFor] at h
  rw [createFeeTransferInstruction_ok_eq] at h
  injection h with h
  exact h.symm

theorem feeTransferInstructionFor_sell_ok (request : ActiveSwapRequest)
    (sa : String) (cfg : Config) (t : TransactionType) (bf q : Nat)
    (i : Instruction) (ht : t = .SELL_ALL ∨ t = .SELL_PARTIAL)
    (h : feeTransferInstructionFor request sa cfg t bf q = .ok i) :
    ∃ fee, calculateFeeAmount q t cfg = .ok fee ∧ fee ≤ q ∧
      i = .feeTransfer request.buyTokenAccount request.userPublicKey (fee : Int) := by
  rcases ht with ht | ht
  · subst ht
    simp only [feeTransferInstructionFor] at h
    cases hsf : calculateFeeAmount q .SELL_ALL cfg with
    | error e => rw [hsf] at h; simp at h
    | ok sf =>
      rw [hsf] at h
      dsimp only [] at h
      rw [createFeeTransferInstruction_ok_eq] at h
      injection h with h
      exact ⟨sf, rfl, calculateFeeAmount_le _ _ _ _ hsf, h.symm⟩
  · subst ht
    simp only [feeTransferInstructionFor] at h
    cases hsf : calculateFeeAmount q .SELL_PARTIAL cfg with
    | error e => rw [hsf] at h; simp at h
    | ok sf =>
      rw [hsf] at h
      dsimp only [] at h
      rw [createFeeTransferInstruction_ok_eq] at h
      injection h with h
      exact ⟨sf, rfl, calculateFeeAmount_le _ _ _ _ hsf, h.symm⟩

/-- C5: for a BUY, the fee is computed from the requested sell quantity
before the quote is requested and the quoted amount is the sell quantity
minus the fee; for a SELL (partial or all), nothing is deducted before
quoting and the fee is computed from the quote's output amount; in both cases
the fee is at most the traded quantity. -/
theorem c5_fee_order (ext : Externals) (request : ActiveSwapRequest)
    (cfg : Config) (a : Nat) (out : BuildOutcome)
    (h : buildSwapCore ext request cfg a = .ok out) :
    (ext.txType = .BUY →
      calculateFeeAmount request.sellQuantity .BUY cfg = .ok out.buyFeeAmount ∧
      out.buyFeeAmount ≤ request.sellQuantity ∧
      out.quoteRequest.amount =
        (request.sellQuantity : Int) - (out.buyFeeAmount : Int) ∧
      ∃ sa, request.sellTokenAccount = some sa ∧
        out.feeTransferInstruction =
          .feeTransfer sa request.userPublicKey (out.buyFeeAmount : Int)) ∧
    (ext.txType = .SELL_ALL ∨ ext.txType = .SELL_PARTIAL →
      out.buyFeeAmount = 0 ∧
      out.quoteRequest.amount = (request.sellQuantity : Int) ∧
      ∃ fee, calculateFeeAmount out.quote.outAmount ext.txType cfg = .ok fee ∧
        fee ≤ out.quote.outAmount ∧
        out.feeTransferInstruction =
          .feeTransfer request.buyTokenAccount request.userPublicKey (fee : Int)) := by
  unfold buildSwapCore at h
  cases hsa : request.sellTokenAccount with
  | none => rw [hsa] at h; simp at h
  | some sa =>
    rw [hsa] at h
    try dsimp only [] at h
    by_cases h1 : truthy request.slippageBps = true ∧
        request.slippageBps.getD 0 > cfg.USER_SLIPPAGE_BPS_MAX
    · rw [if_pos h1] at h; cases h
    · rw [if_neg h1] at h
      by_cases h2 : truthy request.slippageBps = true ∧
          request.slippageBps.getD 0 < cfg.MIN_SLIPPAGE_BPS
      · rw [if_pos h2] at h; cases h
      · rw [if_neg h2] at h
        try dsimp only [] at h
        cases hf : (if ext.txType = TransactionType.BUY then
            calculateFeeAmount request.sellQuantity ext.txType cfg
          else Except.ok 0) with
        | error e => rw [hf] at h; simp at h
        | ok bf =>
          rw [hf] at h
          try dsimp only [] at h
          cases hq : ext.quote a (swapInstructionRequestOf request cfg
              ((request.sellQuantity : Int) - (bf : Int))) with
          | error m => rw [hq] at h; simp at h
          | ok q =>
            rw [hq] at h
            try dsimp only [] at h
            by_cases he : q.instructions.isEmpty
            · rw [if_pos he] at h; cases h
            · rw [if_neg he] at h
              cases hfee : feeTransferInstructionFor request sa cfg ext.txType
                  bf q.outAmount with
              | error e2 => rw [hfee] at h; simp at h
              | ok feeIx =>
                rw [hfee] at h
                try dsimp only [] at h
                injection h with h
                subst h
                constructor
                · intro hBUY
                  rw [if_pos hBUY] at hf
                  rw [hBUY] at hf hfee
                  exact ⟨hf, calculateFeeAmount_le _ _ _ _ hf, rfl, sa, rfl,
                    feeTransferInstructionFor_buy_ok request sa cfg bf
                      q.outAmount feeIx hfee⟩
                · intro hS
                  have hnb : ¬ ext.txType = .BUY := by
                    rcases hS with hS | hS <;> rw [hS] <;> decide
                  rw [if_neg hnb] at hf
                  injection hf with hf
                  refine ⟨hf.symm, ?_, ?_⟩
                  · show (request.sellQuantity : Int) - (bf : Int) =
                      (request.sellQuantity : Int)
                    rw [← hf]
                    simp
                  · exact feeTransferInstructionFor_sell_ok request sa cfg
                      ext.txType bf q.outAmount feeIx hS hfee

/-- Witness for C5 at the spec's example: a BUY of 1,000,000 base units at
100 bps yields a 10,000 fee and a quoted amount of 990,000. -/
theorem c5_fee_order_witness :
    ∃ out : BuildOutcome, buildSwapCore extStd reqAuto cfgStd 1 = .ok out ∧
      calculateFeeAmount 1000000 .BUY cfgStd = .ok 10000 ∧
      out.buyFeeAmount = 10000 ∧
      out.quoteRequest.amount = (990000 : Int) := by
  obtain ⟨out, hout⟩ : ∃ out, buildSwapCore extStd reqAuto cfgStd 1 = .ok out :=
    ⟨_, rfl⟩
  obtain ⟨hcalc, hle, hamt, hix⟩ := (c5_fee_order extStd reqAuto cfgStd 1 out hout).1 rfl
  have h1 : calculateFeeAmount 1000000 .BUY cfgStd = .ok 10000 := rfl
  have hbf : out.buyFeeAmount = 10000 := by
    injection h1.symm.trans hcalc with hh
    omega
  refine ⟨out, hout, h1, hbf, ?_⟩
  rw [hamt, hbf]
  decide

theorem buildSwapResponse_error_iff (ext : Externals)
    (request : ActiveSwapRequest) (cfg : Config) (a : Nat) (st : Registry)
    (e : Err) :
    buildSwapResponse ext request cfg a st = .error e ↔
      buildSwapCore ext request cfg a = .error e := by
  unfold buildSwapResponse
  cases hc : buildSwapCore ext request cfg a with
  | error e2 => simp
  | ok out => simp

theorem buildSwapCore_slippage_error_source (ext : Externals)
    (request : ActiveSwapRequest) (cfg : Config) (a : Nat) (e : Err)
    (h : buildSwapCore ext request cfg a = .error e)
    (he : e = .slippageTooHigh ∨ e = .slippageTooLow) :
    truthy request.slippageBps = true ∧
      (request.slippageBps.getD 0 > cfg.USER_SLIPPAGE_BPS_MAX ∨
        request.slippageBps.getD 0 < cfg.MIN_SLIPPAGE_BPS) := by
  unfold buildSwapCore at h
  cases hsa : request.sellTokenAccount with
  | none =>
    rw [hsa] at h
    injection h with h
    rcases he with he | he <;> rw [← h] at he <;> cases he
  | some sa =>
    rw [hsa] at h
    try dsimp only [] at h
    by_cases h1 : truthy request.slippageBps = true ∧
        request.slippageBps.getD 0 > cfg.USER_SLIPPAGE_BPS_MAX
    · exact ⟨h1.1, Or.inl h1.2⟩
    · rw [if_neg h1] at h
      by_cases h2 : truthy request.slippageBps = true ∧
          request.slippageBps.getD 0 < cfg.MIN_SLIPPAGE_BPS
      · exact ⟨h2.1, Or.inr h2.2⟩
      · rw [if_neg h2] at h
        try dsimp only [] at h
        exfalso
        cases hf : (if ext.txType = TransactionType.BUY then
            calculateFeeAmount request.sellQuantity ext.txType cfg
          else Except.ok 0) with
        | error e2 =>
          rw [hf] at h
          try dsimp only [] at h
          injection h with h
          have he2 : e2 = .belowMinTradeSize := by
            split at hf
            · exact calculateFeeAmount_error_eq _ _ _ _ hf
            · cases hf
          rw [he2] at h
          rcases he with he | he <;> rw [he] at h <;> cases h
        | ok bf =>
          rw [hf] at h
          try dsimp only [] at h
          cases hq : ext.quote a (swapInstructionRequestOf request cfg
              ((request.sellQuantity : Int) - (bf : Int))) with
          | error m =>
            rw [hq] at h
            try dsimp only [] at h
            injection h with h
            rcases he with he | he <;> rw [he] at h <;> cases h
          | ok q =>
            rw [hq] at h
            try dsimp only [] at h
            by_cases hemp : q.instructions.isEmpty
            · rw [if_pos hemp] at h
              injection h with h
              rcases he with he | he <;> rw [he] at h <;> cases h
            · rw [if_neg hemp] at h
              cases hfee : feeTransferInstructionFor request sa cfg ext.txType
                  bf q.outAmount with
              | error e3 =>
                rw [hfee] at h
                try dsimp only [] at h
                injection h with h
                have := feeTransferInstructionFor_error_shape request sa cfg
                  ext.txType bf q.outAmount e3 hfee
                rcases this with h3 | h3 | h3 <;> rw [h3] at h <;>
                  rcases he with he | he <;> rw [he] at h <;> cases h
              | ok feeIx =>
                rw [hfee] at h
                try dsimp only [] at h
                cases h

/-- C6 (amended): for a request whose slippageBps is set to a nonzero value
(TypeScript truthiness: an explicit 0 is treated as unset) outside the
inclusive range from MIN_SLIPPAGE_BPS to USER_SLIPPAGE_BPS_MAX,
buildSwapResponse fails with the corresponding slippage validation error
before any quote is requested (for every quote oracle); for a request whose
slippageBps is unset, zero, or inside the range, no slippage validation
error is raised. -/
theorem c6_slippage_guard (ext : Externals) (request : ActiveSwapRequest)
    (cfg : Config) (a : Nat) (st : Registry) (sa : String)
    (hacct : request.sellTokenAccount = some sa) :
    (truthy request.slippageBps = true →
      (request.slippageBps.getD 0 > cfg.USER_SLIPPAGE_BPS_MAX →
        buildSwapResponse ext request cfg a st = .error .slippageTooHigh) ∧
      (request.slippageBps.getD 0 ≤ cfg.USER_SLIPPAGE_BPS_MAX →
        request.slippageBps.getD 0 < cfg.MIN_SLIPPAGE_BPS →
        buildSwapResponse ext request cfg a st = .error .slippageTooLow)) ∧
    ((truthy request.slippageBps = false ∨
        (cfg.MIN_SLIPPAGE_BPS ≤ request.slippageBps.getD 0 ∧
          request.slippageBps.getD 0 ≤ cfg.USER_SLIPPAGE_BPS_MAX)) →
      buildSwapResponse ext request cfg a st ≠ .error .slippageTooHigh ∧
      buildSwapResponse ext request cfg a st ≠ .error .slippageTooLow) := by
  constructor
  · intro ht
    constructor
    · intro hgt
      rw [buildSwapResponse_error_iff]
      unfold buildSwapCore
      rw [hacct]
      try dsimp only []
      rw [if_pos ⟨ht, hgt⟩]
    · intro hle hlt
      rw [buildSwapResponse_error_iff]
      unfold buildSwapCore
      rw [hacct]
      try dsimp only []
      rw [if_neg (fun hand => absurd hand.2 (Nat.not_lt.mpr hle)),
        if_pos ⟨ht, hlt⟩]
  · intro hcond
    constructor <;> intro heq
    · have hc := (buildSwapResponse_error_iff ext request cfg a st _).mp heq
      have hsrc := buildSwapCore_slippage_error_source ext request cfg a _ hc
        (Or.inl rfl)
      rcases hcond with hf | ⟨hmin, hmax⟩
      · rw [hsrc.1] at hf; cases hf
      · rcases hsrc.2 with hh | hh <;> omega
    · have hc := (buildSwapResponse_error_iff ext request cfg a st _).mp heq
      have hsrc := buildSwapCore_slippage_error_source ext request cfg a _ hc
        (Or.inr rfl)
      rcases hcond with hf | ⟨hmin, hmax⟩
      · rw [hsrc.1] at hf; cases hf
      · rcases hsrc.2 with hh | hh <;> omega

/-- Witness for C6 (amended): a pinned slippage of 2000 bps above the
configured maximum of 1500 is rejected before quoting, while an unset
slippage raises no validation error. -/
theorem c6_slippage_guard_witness :
    buildSwapResponse extStd reqHigh cfgStd 1 [] = .error .slippageTooHigh ∧
    buildSwapResponse extStd reqAuto cfgStd 1 [] ≠ .error .slippageTooHigh := by
  constructor
  · exact ((c6_slippage_guard extStd reqHigh cfgStd 1 [] "sellAcct" rfl).1
      (by decide)).1 (by decide)
  · exact ((c6_slippage_guard extStd reqAuto cfgStd 1 [] "sellAcct" rfl).2
      (Or.inl (by decide))).1

/-- Counterexample to C6 as stated: slippageBps explicitly set to 0 is set
and lies outside the inclusive range starting at MIN_SLIPPAGE_BPS = 50, so
the claim requires a validation error before quoting; the code treats the
falsy 0 as unset and builds the swap successfully. -/
theorem c6_counterexample :
    reqZeroSlip.slippageBps = some 0 ∧
    cfgStd.MIN_SLIPPAGE_BPS = 50 ∧
    (∃ r, buildSwapResponse extStd reqZeroSlip cfgStd 1 [] = .ok r) := by
  exact ⟨rfl, rfl, ⟨_, rfl⟩⟩

end DexServer
